import Mathlib

/-
Verification of the financial calculation engine
`src/backend/app/services/calc_service.py` (class `CalculadoraFinanciera`).

Python `Decimal` values are embedded as exact rationals (`ℚ`).  All the
monetary arithmetic performed by the engine (addition, subtraction,
multiplication, `quantize`) is exact decimal arithmetic well inside the
28-significant-digit default context, so the rational embedding is faithful;
`Decimal.quantize(exp)` is embedded as explicit rounding to a multiple of
`exp` (round-half-even by default, round-half-up where the source passes
`ROUND_HALF_UP`).  The only floating-point computation in the file, the
fractional power used by the rate converter `tasa_ea_a_mensual`, is kept
abstract (a function parameter) wherever it is needed.
-/

namespace CalcService

/-- Round-half-even to an integer: the default rounding mode
(`ROUND_HALF_EVEN`) of Python `Decimal` contexts, used by every `quantize`
call in the source that does not pass an explicit mode. -/
def rhe (x : ℚ) : ℤ :=
  if x - ⌊x⌋ < 1/2 then ⌊x⌋
  else if 1/2 < x - ⌊x⌋ then ⌊x⌋ + 1
  else if Even ⌊x⌋ then ⌊x⌋ else ⌊x⌋ + 1

/-- Round-half-up to an integer (ties away from zero): Python
`ROUND_HALF_UP`, used in `calcular_cuota_fija` (line 243). -/
def rhu (x : ℚ) : ℤ :=
  if 0 ≤ x then ⌊x + 1/2⌋ else -⌊(1/2) - x⌋

/-- `value.quantize(Decimal("0.01"))`: round to a multiple of `0.01`,
half-even (the engine's monetary precision `PRECISION_DINERO`). -/
def quantize2 (x : ℚ) : ℚ := (rhe (100 * x) : ℚ) / 100

/-- `value.quantize(Decimal("0.01"), rounding=ROUND_HALF_UP)`. -/
def quantize2up (x : ℚ) : ℚ := (rhu (100 * x) : ℚ) / 100

/-- `value.quantize(Decimal("0.0001"))`: round to 4 decimals, half-even
(used by `porcentaje_ajuste` in `calcular_resumen_credito`). -/
def quantize4 (x : ℚ) : ℚ := (rhe (10000 * x) : ℚ) / 10000

/-- A rational that is a whole number of cents (an exactly representable
2-decimal `Decimal`). -/
def esCentavos (q : ℚ) : Prop := ∃ n : ℤ, q = (n : ℚ) / 100

-- ═══════════════════════ basic rounding lemmas ═══════════════════════

theorem rhe_intCast (n : ℤ) : rhe (n : ℚ) = n := by
  unfold rhe
  rw [Int.floor_intCast]
  simp

theorem floor_le_rhe (x : ℚ) : ⌊x⌋ ≤ rhe x := by
  unfold rhe
  split_ifs <;> omega

theorem rhe_le_floor_add_one (x : ℚ) : rhe x ≤ ⌊x⌋ + 1 := by
  unfold rhe
  split_ifs <;> omega

theorem rhe_le (x : ℚ) : (rhe x : ℚ) ≤ x + 1/2 := by
  have hfl := Int.floor_le x
  have hlt := Int.lt_floor_add_one x
  unfold rhe
  split_ifs with h1 h2 h3 <;> push_cast <;> linarith

theorem le_rhe (x : ℚ) : x - 1/2 ≤ (rhe x : ℚ) := by
  have hfl := Int.floor_le x
  have hlt := Int.lt_floor_add_one x
  unfold rhe
  split_ifs with h1 h2 h3 <;> push_cast <;> linarith

theorem rhe_mono {x y : ℚ} (h : x ≤ y) : rhe x ≤ rhe y := by
  rcases lt_or_eq_of_le (Int.floor_le_floor h) with hf | hf
  · have h1 := rhe_le_floor_add_one x
    have h2 := floor_le_rhe y
    omega
  · have hr : x - (⌊x⌋ : ℚ) ≤ y - (⌊y⌋ : ℚ) := by
      rw [hf]; linarith
    unfold rhe
    rw [hf] at *
    split_ifs with h1 h2 h3 h4 h5 h6 h7 h8 h9 h10 <;>
      first
        | omega
        | (exfalso; linarith)

theorem rhe_zero : rhe (0 : ℚ) = 0 := by
  have h := rhe_intCast 0
  simpa using h

theorem rhe_nonneg {x : ℚ} (h : 0 ≤ x) : 0 ≤ rhe x := by
  have h1 : rhe (0 : ℚ) ≤ rhe x := rhe_mono h
  rw [rhe_zero] at h1
  exact h1

theorem quantize2_mono {x y : ℚ} (h : x ≤ y) : quantize2 x ≤ quantize2 y := by
  unfold quantize2
  have : rhe (100 * x) ≤ rhe (100 * y) := rhe_mono (by linarith)
  have hc : ((rhe (100 * x) : ℚ)) ≤ (rhe (100 * y) : ℚ) := by exact_mod_cast this
  linarith

theorem quantize2_nonneg {x : ℚ} (h : 0 ≤ x) : 0 ≤ quantize2 x := by
  unfold quantize2
  have : 0 ≤ rhe (100 * x) := rhe_nonneg (by linarith)
  have hc : (0 : ℚ) ≤ (rhe (100 * x) : ℚ) := by exact_mod_cast this
  linarith

theorem quantize2_le (x : ℚ) : quantize2 x ≤ x + 1/200 := by
  unfold quantize2
  have := rhe_le (100 * x)
  linarith

theorem quantize2_centavos {n : ℤ} : quantize2 ((n : ℚ) / 100) = (n : ℚ) / 100 := by
  unfold quantize2
  have h : (100 : ℚ) * ((n : ℚ) / 100) = (n : ℚ) := by ring
  rw [h, rhe_intCast]

theorem esCentavos_quantize2 (x : ℚ) : esCentavos (quantize2 x) :=
  ⟨rhe (100 * x), rfl⟩

theorem esCentavos_add {x y : ℚ} : esCentavos x → esCentavos y → esCentavos (x + y) := by
  rintro ⟨a, rfl⟩ ⟨b, rfl⟩
  exact ⟨a + b, by push_cast; ring⟩

theorem esCentavos_sub {x y : ℚ} : esCentavos x → esCentavos y → esCentavos (x - y) := by
  rintro ⟨a, rfl⟩ ⟨b, rfl⟩
  exact ⟨a - b, by push_cast; ring⟩

theorem quantize2_of_esCentavos {x : ℚ} (h : esCentavos x) : quantize2 x = x := by
  rcases h with ⟨n, rfl⟩
  exact quantize2_centavos

-- ═══════════════════════ data model (calc_service.py dataclasses) ═══════════════════════

/-- Module constant `PORCENTAJE_HONORARIOS = Decimal("0.03")`. -/
def PORCENTAJE_HONORARIOS : ℚ := 3/100

/-- Module constant `PORCENTAJE_IVA = Decimal("0.19")`. -/
def PORCENTAJE_IVA : ℚ := 19/100

/-- Module constant `TARIFA_MINIMA_HONORARIOS = Decimal("500000")`. -/
def TARIFA_MINIMA_HONORARIOS : ℚ := 500000

/-- Module constant `PORCENTAJE_INGRESO_MINIMO = Decimal("0.30")`. -/
def PORCENTAJE_INGRESO_MINIMO : ℚ := 30/100

/-- Dataclass `DatosCredito`: the loan snapshot fed to the engine. -/
structure DatosCredito where
  saldo_capital : ℚ
  valor_cuota_actual : ℚ
  cuotas_pendientes : ℤ
  tasa_interes_ea : ℚ
  valor_prestado_inicial : ℚ
  beneficio_frech : ℚ
  seguros_mensual : ℚ
  sistema_amortizacion : String
  valor_uvr_actual : Option ℚ
  saldo_uvr : Option ℚ
deriving DecidableEq

/-- Dataclass `FilaAmortizacion`: one row of the amortization table. -/
structure FilaAmortizacion where
  numero_cuota : ℕ
  saldo_inicial : ℚ
  cuota_total : ℚ
  interes : ℚ
  abono_capital : ℚ
  abono_extra : ℚ
  saldo_final : ℚ
deriving DecidableEq

/-- Dataclass `ResultadoAmortizacion`: the schedule plus its aggregates.
Its fields are exactly `cuotas_totales`, `total_pagado`, `total_intereses`,
`total_capital` and `tabla`; the dataclass carries no convergence flag. -/
structure ResultadoAmortizacion where
  cuotas_totales : ℕ
  total_pagado : ℚ
  total_intereses : ℚ
  total_capital : ℚ
  tabla : List FilaAmortizacion
deriving DecidableEq

/-- Dataclass `TiempoAhorro` (years + months). -/
structure TiempoAhorro where
  anios : ℤ
  meses : ℤ
deriving DecidableEq

/-- `TiempoAhorro.desde_meses`: Python floor division and floor modulo by 12. -/
def TiempoAhorro.desde_meses (total_meses : ℤ) : TiempoAhorro :=
  ⟨Int.fdiv total_meses 12, Int.fmod total_meses 12⟩

/-- Dataclass `ResultadoProyeccion`. -/
structure ResultadoProyeccion where
  numero_opcion : ℕ
  nombre_opcion : String
  abono_adicional : ℚ
  cuotas_nuevas : ℕ
  tiempo_restante : TiempoAhorro
  cuotas_reducidas : ℤ
  tiempo_ahorrado : TiempoAhorro
  nuevo_valor_cuota : ℚ
  total_por_pagar : ℚ
  valor_ahorrado_intereses : ℚ
  veces_pagado : ℚ
  honorarios : ℚ
  honorarios_con_iva : ℚ
  ingreso_minimo_requerido : ℚ
deriving DecidableEq

/-- Dataclass `ResumenCredito` (the 4-block credit summary). -/
structure ResumenCredito where
  valor_prestado : ℚ
  cuotas_pactadas : ℤ
  cuotas_pagadas : ℤ
  cuotas_por_pagar : ℤ
  cuota_actual : ℚ
  beneficio_frech : ℚ
  cuota_completa : ℚ
  total_pagado_fecha : ℚ
  total_frech_recibido : ℚ
  monto_real_pagado_banco : ℚ
  saldo_actual : ℚ
  ajuste_inflacion_pesos : ℚ
  porcentaje_ajuste : ℚ
  total_intereses_seguros : ℚ
deriving DecidableEq

-- ═══════════════════════ schedule generator (lines 249-324) ═══════════════════════

/-- Line 282: `interes_mes = (saldo * tasa_mensual).quantize(PRECISION_DINERO)`. -/
def interesMes (tasa_mensual saldo : ℚ) : ℚ := quantize2 (saldo * tasa_mensual)

/-- The payoff test of line 288: `saldo <= abono_capital_base + abono_extra`,
with `abono_capital_base = cuota_fija - interes_mes` (line 285). -/
def pagoFinal (tasa_mensual cuota_fija abono_extra saldo : ℚ) : Prop :=
  saldo ≤ (cuota_fija - interesMes tasa_mensual saldo) + abono_extra

instance (t cf e saldo : ℚ) : Decidable (pagoFinal t cf e saldo) :=
  inferInstanceAs (Decidable (saldo ≤ (cf - interesMes t saldo) + e))

/-- `abono_capital_real` (lines 289 / 293). -/
def abonoCapitalReal (t cf e saldo : ℚ) : ℚ :=
  if pagoFinal t cf e saldo then saldo else cf - interesMes t saldo

/-- `abono_extra_real` (lines 290 / 294). -/
def abonoExtraReal (t cf e saldo : ℚ) : ℚ :=
  if pagoFinal t cf e saldo then 0 else e

/-- `cuota_real` (lines 291 / 295). -/
def cuotaReal (t cf e saldo : ℚ) : ℚ :=
  if pagoFinal t cf e saldo then interesMes t saldo + saldo else cf + e

/-- Lines 298-300: `saldo = saldo - abono_capital_real - abono_extra_real`,
then clamped to 0 when negative. -/
def saldoSiguiente (t cf e saldo : ℚ) : ℚ :=
  if saldo - abonoCapitalReal t cf e saldo - abonoExtraReal t cf e saldo < 0 then 0
  else saldo - abonoCapitalReal t cf e saldo - abonoExtraReal t cf e saldo

/-- The row appended at line 308 for a month opening with balance `saldo`
as installment number `cuota_num + 1`. -/
def filaDe (t cf e saldo : ℚ) (cuota_num : ℕ) : FilaAmortizacion :=
  { numero_cuota := cuota_num + 1
    saldo_inicial := saldo
    cuota_total := cuotaReal t cf e saldo
    interes := interesMes t saldo
    abono_capital := abonoCapitalReal t cf e saldo
    abono_extra := abonoExtraReal t cf e saldo
    saldo_final := saldoSiguiente t cf e saldo }

/-- The `while saldo > 0.01 and cuota_num < max_cuotas` loop of
`generar_tabla_amortizacion` (lines 277-316) as structural recursion on the
remaining iteration budget `max_cuotas - cuota_num`: the list of rows the
loop appends from a state with balance `saldo` and counter `cuota_num`. -/
def tablaDesde (t cf e : ℚ) : ℕ → ℚ → ℕ → List FilaAmortizacion
  | 0, _, _ => []
  | fuel + 1, saldo, cuota_num =>
    if 1/100 < saldo then
      filaDe t cf e saldo cuota_num ::
        tablaDesde t cf e fuel (saldoSiguiente t cf e saldo) (cuota_num + 1)
    else []

/-- Sum of the `cuota_total` column: the loop accumulator `total_pagado`
(one row is appended per iteration, so on exit the accumulator equals the
column sum). -/
def sumaCuotas (tabla : List FilaAmortizacion) : ℚ :=
  (tabla.map FilaAmortizacion.cuota_total).sum

/-- Sum of the `interes` column: the loop accumulator `total_intereses`. -/
def sumaIntereses (tabla : List FilaAmortizacion) : ℚ :=
  (tabla.map FilaAmortizacion.interes).sum

/-- Sum of `abono_capital + abono_extra`: the loop accumulator `total_capital`. -/
def sumaCapital (tabla : List FilaAmortizacion) : ℚ :=
  (tabla.map (fun f => f.abono_capital + f.abono_extra)).sum

/-- `CalculadoraFinanciera.generar_tabla_amortizacion` (lines 249-324).
The Python loop threads `cuota_num` and the three totals as mutable
accumulators; since exactly one row is appended per iteration starting from
`cuota_num = 0`, on exit `cuota_num` is the number of rows and each total is
the corresponding column sum, quantized at lines 320-322.  The Python
defaults are `abono_extra = 0`, `max_cuotas = 600`; callers inside the
module use both defaults, which this embedding passes explicitly. -/
def generar_tabla_amortizacion (saldo_inicial tasa_mensual cuota_fija abono_extra : ℚ)
    (max_cuotas : ℕ) : ResultadoAmortizacion :=
  let tabla := tablaDesde tasa_mensual cuota_fija abono_extra max_cuotas saldo_inicial 0
  { cuotas_totales := tabla.length
    total_pagado := quantize2 (sumaCuotas tabla)
    total_intereses := quantize2 (sumaIntereses tabla)
    total_capital := quantize2 (sumaCapital tabla)
    tabla := tabla }

/-- The balance left after the rows of a (partial) schedule that started at
`saldo0`: the `saldo_final` of the last row, or `saldo0` if there is none. -/
def saldoRestante (saldo0 : ℚ) (tabla : List FilaAmortizacion) : ℚ :=
  (tabla.getLast?).elim saldo0 FilaAmortizacion.saldo_final

-- ═══════════════════════ loop lemmas ═══════════════════════

theorem quantize2_zero : quantize2 0 = 0 := by
  have h : ((0 : ℤ) : ℚ) / 100 = (0 : ℚ) := by norm_num
  have h2 := quantize2_centavos (n := 0)
  rwa [h] at h2

theorem tablaDesde_of_le {s : ℚ} (h : s ≤ 1/100) (t cf e : ℚ) (fuel n : ℕ) :
    tablaDesde t cf e fuel s n = [] := by
  cases fuel with
  | zero => rfl
  | succ f => simp only [tablaDesde, if_neg (not_lt.mpr h)]

theorem tablaDesde_of_lt {s : ℚ} (h : 1/100 < s) (t cf e : ℚ) (fuel n : ℕ) :
    tablaDesde t cf e (fuel + 1) s n =
      filaDe t cf e s n :: tablaDesde t cf e fuel (saldoSiguiente t cf e s) (n + 1) := by
  simp only [tablaDesde, if_pos h]

theorem saldoSiguiente_of_pagoFinal {t cf e s : ℚ} (h : pagoFinal t cf e s) :
    saldoSiguiente t cf e s = 0 := by
  unfold saldoSiguiente abonoCapitalReal abonoExtraReal
  rw [if_pos h, if_pos h]
  norm_num

theorem saldoSiguiente_of_not {t cf e s : ℚ} (h : ¬ pagoFinal t cf e s) :
    saldoSiguiente t cf e s = s - (cf - interesMes t s) - e := by
  unfold saldoSiguiente abonoCapitalReal abonoExtraReal
  rw [if_neg h, if_neg h]
  have h2 : ¬ (s - (cf - interesMes t s) - e < 0) := by
    unfold pagoFinal at h
    push_neg at h
    linarith
  rw [if_neg h2]

theorem saldoSiguiente_eq_sub (t cf e s : ℚ) :
    saldoSiguiente t cf e s = s - abonoCapitalReal t cf e s - abonoExtraReal t cf e s := by
  by_cases h : pagoFinal t cf e s
  · rw [saldoSiguiente_of_pagoFinal h]
    unfold abonoCapitalReal abonoExtraReal
    rw [if_pos h, if_pos h]
    ring
  · rw [saldoSiguiente_of_not h]
    unfold abonoCapitalReal abonoExtraReal
    rw [if_neg h, if_neg h]

theorem mem_tablaDesde {t cf e : ℚ} {fuel : ℕ} :
    ∀ {s : ℚ} {n : ℕ} {fila : FilaAmortizacion},
      fila ∈ tablaDesde t cf e fuel s n →
      ∃ s0 n0, fila = filaDe t cf e s0 n0 ∧ 1/100 < s0 := by
  induction fuel with
  | zero =>
    intro s n fila h
    simp [tablaDesde] at h
  | succ f ih =>
    intro s n fila h
    by_cases hs : 1/100 < s
    · rw [tablaDesde_of_lt hs] at h
      rcases List.mem_cons.mp h with h1 | h1
      · exact ⟨s, n, h1, hs⟩
      · exact ih h1
    · rw [tablaDesde_of_le (not_lt.mp hs)] at h
      simp at h

theorem pagoFinal_numero {t cf e : ℚ} {fuel : ℕ} :
    ∀ {s : ℚ} {n : ℕ} {fila : FilaAmortizacion},
      fila ∈ tablaDesde t cf e fuel s n →
      pagoFinal t cf e fila.saldo_inicial →
      fila.numero_cuota = n + (tablaDesde t cf e fuel s n).length := by
  induction fuel with
  | zero =>
    intro s n fila h _
    simp [tablaDesde] at h
  | succ f ih =>
    intro s n fila h hp
    by_cases hs : 1/100 < s
    · rw [tablaDesde_of_lt hs] at h ⊢
      rcases List.mem_cons.mp h with h1 | h1
      · subst h1
        have hp2 : pagoFinal t cf e s := hp
        rw [saldoSiguiente_of_pagoFinal hp2, tablaDesde_of_le (by norm_num)]
        simp [filaDe]
      · have h2 := ih h1 hp
        simp only [List.length_cons]
        omega
    · rw [tablaDesde_of_le (not_lt.mp hs)] at h
      simp at h

theorem tablaDesde_length_le_fuel (t cf e : ℚ) :
    ∀ (fuel : ℕ) (s : ℚ) (n : ℕ), (tablaDesde t cf e fuel s n).length ≤ fuel := by
  intro fuel
  induction fuel with
  | zero =>
    intro s n
    simp [tablaDesde]
  | succ f ih =>
    intro s n
    by_cases hs : 1/100 < s
    · rw [tablaDesde_of_lt hs]
      simpa using ih (saldoSiguiente t cf e s) (n + 1)
    · rw [tablaDesde_of_le (not_lt.mp hs)]
      simp

theorem saldoRestante_nil (s : ℚ) : saldoRestante s [] = s := rfl

theorem saldoRestante_cons (s : ℚ) (f : FilaAmortizacion) (l : List FilaAmortizacion) :
    saldoRestante s (f :: l) = saldoRestante f.saldo_final l := by
  cases l with
  | nil => simp [saldoRestante]
  | cons a l2 =>
    obtain ⟨x, hx⟩ : ∃ x, (a :: l2).getLast? = some x :=
      Option.isSome_iff_exists.mp (List.getLast?_isSome.mpr (by simp))
    simp [saldoRestante, List.getLast?_cons_cons, hx]

theorem saldoRestante_le_of_length_lt (t cf e : ℚ) :
    ∀ (fuel : ℕ) (s : ℚ) (n : ℕ),
      (tablaDesde t cf e fuel s n).length < fuel →
      saldoRestante s (tablaDesde t cf e fuel s n) ≤ 1/100 := by
  intro fuel
  induction fuel with
  | zero =>
    intro s n h
    simp at h
  | succ f ih =>
    intro s n h
    by_cases hs : 1/100 < s
    · rw [tablaDesde_of_lt hs] at h ⊢
      rw [saldoRestante_cons]
      have hf : (filaDe t cf e s n).saldo_final = saldoSiguiente t cf e s := rfl
      rw [hf]
      apply ih
      simp only [List.length_cons] at h
      omega
    · rw [tablaDesde_of_le (not_lt.mp hs), saldoRestante_nil]
      exact not_lt.mp hs

theorem sumaCuotas_nil : sumaCuotas [] = 0 := rfl

theorem sumaCuotas_cons (f : FilaAmortizacion) (l : List FilaAmortizacion) :
    sumaCuotas (f :: l) = f.cuota_total + sumaCuotas l := by
  simp [sumaCuotas]

theorem sumaIntereses_nil : sumaIntereses [] = 0 := rfl

theorem sumaIntereses_cons (f : FilaAmortizacion) (l : List FilaAmortizacion) :
    sumaIntereses (f :: l) = f.interes + sumaIntereses l := by
  simp [sumaIntereses]

theorem saldoSiguiente_eq_max (t cf e s : ℚ) :
    saldoSiguiente t cf e s =
      max (s - abonoCapitalReal t cf e s - abonoExtraReal t cf e s) 0 := by
  unfold saldoSiguiente
  rcases lt_or_le (s - abonoCapitalReal t cf e s - abonoExtraReal t cf e s) 0 with h | h
  · rw [if_pos h, max_eq_right (le_of_lt h)]
  · rw [if_neg (not_lt.mpr h), max_eq_left h]

-- ═══════════════════════ cent-alignment lemmas ═══════════════════════

theorem esCentavos_zero : esCentavos 0 := ⟨0, by norm_num⟩

theorem cuotaReal_esCentavos {t cf e s : ℚ} (hcf : esCentavos cf) (he : esCentavos e)
    (hs : esCentavos s) : esCentavos (cuotaReal t cf e s) := by
  unfold cuotaReal interesMes
  split_ifs
  · exact esCentavos_add (esCentavos_quantize2 _) hs
  · exact esCentavos_add hcf he

theorem saldoSiguiente_esCentavos {t cf e s : ℚ} (hcf : esCentavos cf) (he : esCentavos e)
    (hs : esCentavos s) : esCentavos (saldoSiguiente t cf e s) := by
  by_cases h : pagoFinal t cf e s
  · rw [saldoSiguiente_of_pagoFinal h]
    exact esCentavos_zero
  · rw [saldoSiguiente_of_not h]
    unfold interesMes
    exact esCentavos_sub (esCentavos_sub hs (esCentavos_sub hcf (esCentavos_quantize2 _))) he

theorem sumaCuotas_esCentavos {t cf e : ℚ} (hcf : esCentavos cf) (he : esCentavos e) :
    ∀ (fuel : ℕ) (s : ℚ) (n : ℕ), esCentavos s →
      esCentavos (sumaCuotas (tablaDesde t cf e fuel s n)) := by
  intro fuel
  induction fuel with
  | zero =>
    intro s n hs
    simpa [tablaDesde, sumaCuotas] using esCentavos_zero
  | succ f ih =>
    intro s n hs
    by_cases h1 : 1/100 < s
    · rw [tablaDesde_of_lt h1, sumaCuotas_cons]
      have hhead : (filaDe t cf e s n).cuota_total = cuotaReal t cf e s := rfl
      rw [hhead]
      exact esCentavos_add (cuotaReal_esCentavos hcf he hs)
        (ih _ _ (saldoSiguiente_esCentavos hcf he hs))
    · rw [tablaDesde_of_le (not_lt.mp h1)]
      simpa [sumaCuotas] using esCentavos_zero

-- ═══════════════════════ claims C1, C2, C10 ═══════════════════════

/-- Claim C1: for every call `generar_tabla_amortizacion(saldo, tasa, cuota,
abono, max)` and every generated row, with `interes = quantize2(saldo_inicial
* tasa)` and `abono_capital_base = cuota_fija - interes`: if `saldo_inicial ≤
abono_capital_base + abono_extra` the row is the final one and has
`abono_capital = saldo_inicial`, `abono_extra = 0`, `cuota_total = interes +
saldo_inicial`; otherwise `abono_extra` is applied in full and `cuota_total =
cuota_fija + abono_extra`; the closing balance is the opening balance minus
the applied principal, clamped to at least 0. -/
theorem C1_filas_tabla (s t cf e : ℚ) (m : ℕ) (fila : FilaAmortizacion)
    (hmem : fila ∈ (generar_tabla_amortizacion s t cf e m).tabla) :
    fila.interes = quantize2 (fila.saldo_inicial * t) ∧
    (fila.saldo_inicial ≤ (cf - quantize2 (fila.saldo_inicial * t)) + e →
      fila.abono_capital = fila.saldo_inicial ∧ fila.abono_extra = 0 ∧
      fila.cuota_total = quantize2 (fila.saldo_inicial * t) + fila.saldo_inicial ∧
      fila.numero_cuota = (generar_tabla_amortizacion s t cf e m).cuotas_totales) ∧
    (¬ (fila.saldo_inicial ≤ (cf - quantize2 (fila.saldo_inicial * t)) + e) →
      fila.abono_capital = cf - quantize2 (fila.saldo_inicial * t) ∧
      fila.abono_extra = e ∧
      fila.cuota_total = cf + e) ∧
    fila.saldo_final = max (fila.saldo_inicial - fila.abono_capital - fila.abono_extra) 0 := by
  have htab : (generar_tabla_amortizacion s t cf e m).tabla = tablaDesde t cf e m s 0 := rfl
  rw [htab] at hmem
  obtain ⟨s0, n0, hfe, hs0⟩ := mem_tablaDesde hmem
  subst hfe
  have hsi : (filaDe t cf e s0 n0).saldo_inicial = s0 := rfl
  refine ⟨rfl, ?_, ?_, ?_⟩
  · intro hp
    have hp2 : pagoFinal t cf e s0 := hp
    refine ⟨?_, ?_, ?_, ?_⟩
    · show abonoCapitalReal t cf e s0 = s0
      unfold abonoCapitalReal
      rw [if_pos hp2]
    · show abonoExtraReal t cf e s0 = 0
      unfold abonoExtraReal
      rw [if_pos hp2]
    · show cuotaReal t cf e s0 = quantize2 (s0 * t) + s0
      unfold cuotaReal
      rw [if_pos hp2]
      rfl
    · have hnum := pagoFinal_numero hmem hp2
      have hct : (generar_tabla_amortizacion s t cf e m).cuotas_totales
          = (tablaDesde t cf e m s 0).length := rfl
      rw [hct]
      simpa using hnum
  · intro hp
    have hp2 : ¬ pagoFinal t cf e s0 := hp
    refine ⟨?_, ?_, ?_⟩
    · show abonoCapitalReal t cf e s0 = cf - quantize2 (s0 * t)
      unfold abonoCapitalReal
      rw [if_neg hp2]
      rfl
    · show abonoExtraReal t cf e s0 = e
      unfold abonoExtraReal
      rw [if_neg hp2]
    · show cuotaReal t cf e s0 = cf + e
      unfold cuotaReal
      rw [if_neg hp2]
  · exact saldoSiguiente_eq_max t cf e s0

/-- Claim C2 (amended): every schedule row satisfies `saldo_final =
saldo_inicial - abono_capital - abono_extra` exactly (hence within the 0.01
slack), and `total_pagado` is the sum of the `cuota_total` column rounded to
2 decimals; the rounding is the identity — so the claimed equality holds
exactly — whenever the balance, installment and extra payment are whole
numbers of cents. -/
theorem C2_conservacion (s t cf e : ℚ) (m : ℕ) :
    (∀ fila ∈ (generar_tabla_amortizacion s t cf e m).tabla,
        fila.saldo_final = fila.saldo_inicial - fila.abono_capital - fila.abono_extra ∧
        |fila.saldo_final - (fila.saldo_inicial - fila.abono_capital - fila.abono_extra)|
          ≤ 1/100) ∧
    (generar_tabla_amortizacion s t cf e m).total_pagado
      = quantize2 (sumaCuotas (generar_tabla_amortizacion s t cf e m).tabla) ∧
    (esCentavos s → esCentavos cf → esCentavos e →
      (generar_tabla_amortizacion s t cf e m).total_pagado
        = sumaCuotas (generar_tabla_amortizacion s t cf e m).tabla) := by
  refine ⟨?_, rfl, ?_⟩
  · intro fila hmem
    have htab : (generar_tabla_amortizacion s t cf e m).tabla = tablaDesde t cf e m s 0 := rfl
    rw [htab] at hmem
    obtain ⟨s0, n0, hfe, hs0⟩ := mem_tablaDesde hmem
    subst hfe
    have heq : (filaDe t cf e s0 n0).saldo_final
        = s0 - abonoCapitalReal t cf e s0 - abonoExtraReal t cf e s0 :=
      saldoSiguiente_eq_sub t cf e s0
    refine ⟨heq, ?_⟩
    rw [heq]
    show |s0 - abonoCapitalReal t cf e s0 - abonoExtraReal t cf e s0 -
        (s0 - abonoCapitalReal t cf e s0 - abonoExtraReal t cf e s0)| ≤ 1/100
    simp
  · intro hs hcf he
    have hcent := @sumaCuotas_esCentavos t cf e hcf he m s 0 hs
    have hq := quantize2_of_esCentavos hcent
    exact hq

/-- Claim C10: for every opening balance of at most 0.01 (one cent or less,
zero and negative included), the generator returns zero periods, an empty
table and zero totals. -/
theorem C10_saldo_ya_pagado (s t cf e : ℚ) (m : ℕ) (h : s ≤ 1/100) :
    generar_tabla_amortizacion s t cf e m =
      { cuotas_totales := 0, total_pagado := 0, total_intereses := 0,
        total_capital := 0, tabla := [] } := by
  unfold generar_tabla_amortizacion
  rw [tablaDesde_of_le h]
  simp [sumaCuotas, sumaIntereses, sumaCapital, quantize2_zero]

-- ═══════════════════════ termination bound (claim C4) ═══════════════════════

theorem interesMes_le {t s0 s : ℚ} (ht : 0 ≤ t) (hs : s ≤ s0) :
    interesMes t s ≤ t * s0 + 1/200 := by
  unfold interesMes
  have h1 : quantize2 (s * t) ≤ s * t + 1/200 := quantize2_le _
  have h2 : s * t ≤ s0 * t := mul_le_mul_of_nonneg_right hs ht
  nlinarith

/-- While the installment exceeds the running interest by a fixed positive
margin, every period retires at least that margin of principal, so the table
has at most `openingBalance / margin` rows. -/
theorem tablaDesde_length_le_of_margen {t cf e s0 : ℚ} (ht : 0 ≤ t) (he : 0 ≤ e)
    (hc : t * s0 + 1/200 < cf) :
    ∀ (m : ℕ) (s : ℚ) (fuel n : ℕ), s ≤ s0 → s ≤ (cf - (t * s0 + 1/200)) * m →
      (tablaDesde t cf e fuel s n).length ≤ m := by
  intro m
  induction m with
  | zero =>
    intro s fuel n hs0 hm
    have hs1 : s ≤ 0 := by simpa using hm
    rw [tablaDesde_of_le (le_trans hs1 (by norm_num))]
    simp
  | succ k ih =>
    intro s fuel n hs0 hm
    cases fuel with
    | zero => simp [tablaDesde]
    | succ f =>
      by_cases h1 : 1/100 < s
      · rw [tablaDesde_of_lt h1]
        simp only [List.length_cons]
        by_cases hp : pagoFinal t cf e s
        · rw [saldoSiguiente_of_pagoFinal hp, tablaDesde_of_le (by norm_num)]
          simp
        · rw [saldoSiguiente_of_not hp]
          have hi : interesMes t s ≤ t * s0 + 1/200 := interesMes_le ht hs0
          have hcast : ((k + 1 : ℕ) : ℚ) = (k : ℚ) + 1 := by push_cast; ring
          rw [hcast] at hm
          have hd : 0 < cf - (t * s0 + 1/200) := by linarith
          have hnext0 : s - (cf - interesMes t s) - e ≤ s0 := by linarith
          have hnextk : s - (cf - interesMes t s) - e ≤ (cf - (t * s0 + 1/200)) * k := by
            have hexp : (cf - (t * s0 + 1/200)) * ((k : ℚ) + 1)
                = (cf - (t * s0 + 1/200)) * k + (cf - (t * s0 + 1/200)) := by ring
            rw [hexp] at hm
            linarith
          have htail := ih (s - (cf - interesMes t s) - e) f (n + 1) hnext0 hnextk
          omega
      · rw [tablaDesde_of_le (not_lt.mp h1)]
        simp

/-- Claim C4 (amended): if the installment exceeds the first-period interest
by more than the 0.005 that rounding the interest can add, the balance drops
by at least the margin `cuota_fija - (tasa * saldo_inicial + 0.005)` every
period, so the schedule has at most `m` rows for any whole number `m` of
such steps that covers the opening balance (`saldo_inicial ≤ margen * m`);
whenever such an `m` lies strictly below `max_cuotas` — that is, `max_cuotas`
strictly exceeds the ceiling of `saldo_inicial / margen`, one more period
than the quotient itself may demand — the schedule stops strictly before the
cap with a remaining balance of at most 0.01 (possibly exactly 0.01, which
also ends the loop). -/
theorem C4_terminacion (s t cf e : ℚ) (m max_cuotas : ℕ)
    (ht : 0 ≤ t) (he : 0 ≤ e)
    (hc : t * s + 1/200 < cf)
    (hm : s ≤ (cf - (t * s + 1/200)) * m)
    (hmax : m < max_cuotas) :
    (generar_tabla_amortizacion s t cf e max_cuotas).cuotas_totales < max_cuotas ∧
    saldoRestante s (generar_tabla_amortizacion s t cf e max_cuotas).tabla ≤ 1/100 := by
  have htab : (generar_tabla_amortizacion s t cf e max_cuotas).tabla
      = tablaDesde t cf e max_cuotas s 0 := rfl
  have hct : (generar_tabla_amortizacion s t cf e max_cuotas).cuotas_totales
      = (tablaDesde t cf e max_cuotas s 0).length := rfl
  have hlen : (tablaDesde t cf e max_cuotas s 0).length ≤ m :=
    tablaDesde_length_le_of_margen ht he hc m s max_cuotas 0 le_rfl hm
  have hlt : (tablaDesde t cf e max_cuotas s 0).length < max_cuotas := by omega
  refine ⟨by rw [hct]; exact hlt, ?_⟩
  rw [htab]
  exact saldoRestante_le_of_length_lt t cf e max_cuotas s 0 hlt

-- ═══════════════════════ cap behaviour (claim C6) ═══════════════════════

/-- Claim C6 (amended): when the generator ends with a remaining balance
above 0.01, the iteration cap was exhausted: the result reports exactly
`max_cuotas` periods and the partial table has `max_cuotas` rows.  The
function is total — it returns this partial result rather than raising — and
`ResultadoAmortizacion` carries no dedicated non-convergence flag, so this
period count and the last row's balance are the only indication. -/
theorem C6_cap_alcanzado (s t cf e : ℚ) (m : ℕ)
    (h : 1/100 < saldoRestante s (generar_tabla_amortizacion s t cf e m).tabla) :
    (generar_tabla_amortizacion s t cf e m).cuotas_totales = m ∧
    (generar_tabla_amortizacion s t cf e m).tabla.length = m := by
  have htab : (generar_tabla_amortizacion s t cf e m).tabla = tablaDesde t cf e m s 0 := rfl
  have hle := tablaDesde_length_le_fuel t cf e m s 0
  by_cases hlt : (tablaDesde t cf e m s 0).length < m
  · exfalso
    have h2 := saldoRestante_le_of_length_lt t cf e m s 0 hlt
    rw [htab] at h
    linarith
  · have hl : (tablaDesde t cf e m s 0).length = m := by omega
    exact ⟨hl, hl⟩

-- ═══════════════════════ remaining engine operations ═══════════════════════

/-- `CalculadoraFinanciera.calcular_cuota_fija` (lines 209-243).  The guard
returns 0 for non-positive capital or term; the zero-rate branch divides and
quantizes with the context default (half-even); the positive-rate branch
computes `(1 + float(r)) ** n` in binary floating point — that power is
abstracted here as the parameter `fpow` — and quantizes `ROUND_HALF_UP`.
(Decimal division carries 28 significant digits; it is embedded as exact
rational division, exact for all monetary inputs in range.) -/
def calcular_cuota_fija (fpow : ℚ → ℕ → ℚ) (capital tasa_mensual : ℚ)
    (num_cuotas : ℤ) : ℚ :=
  if capital ≤ 0 ∨ num_cuotas ≤ 0 then 0
  else if tasa_mensual ≤ 0 then quantize2 (capital / (num_cuotas : ℚ))
  else
    quantize2up (capital * tasa_mensual * fpow (1 + tasa_mensual) num_cuotas.toNat /
      (fpow (1 + tasa_mensual) num_cuotas.toNat - 1))

/-- `CalculadoraFinanciera.calcular_honorarios` (lines 515-522):
`max(ahorro * 0.03, TARIFA_MINIMA_HONORARIOS)` quantized to 2 decimals. -/
def calcular_honorarios (ahorro_total : ℚ) : ℚ :=
  quantize2 (max (ahorro_total * PORCENTAJE_HONORARIOS) TARIFA_MINIMA_HONORARIOS)

/-- `CalculadoraFinanciera.calcular_honorarios_con_iva` (lines 524-526). -/
def calcular_honorarios_con_iva (honorarios : ℚ) : ℚ :=
  quantize2 (honorarios * (1 + PORCENTAJE_IVA))

/-- `CalculadoraFinanciera.calcular_ingreso_minimo` (lines 528-539). -/
def calcular_ingreso_minimo (cuota_mensual : ℚ) : ℚ :=
  if PORCENTAJE_INGRESO_MINIMO ≤ 0 then 0
  else quantize2 (cuota_mensual / PORCENTAJE_INGRESO_MINIMO)

/-- `CalculadoraFinanciera.calcular_proyeccion` (lines 330-410).  The rate
conversion `tasa_ea_a_mensual` computes `(1 + EA) ** (1/12)` through binary
floating point (line 189), so it is abstracted as the parameter `conv`; the
real conversion always yields a rate ≥ 0 (it returns 0 for EA ≤ 0 and
otherwise a quantized value of `(1+EA)^(1/12) - 1 ≥ 0`).  Both schedules use
the Python defaults `abono_extra = 0` (baseline) and `max_cuotas = 600`. -/
def calcular_proyeccion (conv : ℚ → ℚ) (datos : DatosCredito) (abono_extra : ℚ)
    (numero_opcion : ℕ) (nombre_opcion : String) : ResultadoProyeccion :=
  let tasa_mensual := conv datos.tasa_interes_ea
  let resultado_actual :=
    generar_tabla_amortizacion datos.saldo_capital tasa_mensual datos.valor_cuota_actual 0 600
  let resultado_con_abono :=
    generar_tabla_amortizacion datos.saldo_capital tasa_mensual datos.valor_cuota_actual
      abono_extra 600
  let cuotas_reducidas : ℤ :=
    (resultado_actual.cuotas_totales : ℤ) - (resultado_con_abono.cuotas_totales : ℤ)
  let ahorro_intereses := resultado_actual.total_intereses - resultado_con_abono.total_intereses
  let nueva_cuota := datos.valor_cuota_actual + abono_extra
  { numero_opcion := numero_opcion
    nombre_opcion := nombre_opcion
    abono_adicional := abono_extra
    cuotas_nuevas := resultado_con_abono.cuotas_totales
    tiempo_restante := TiempoAhorro.desde_meses (resultado_con_abono.cuotas_totales : ℤ)
    cuotas_reducidas := cuotas_reducidas
    tiempo_ahorrado := TiempoAhorro.desde_meses cuotas_reducidas
    nuevo_valor_cuota := nueva_cuota
    total_por_pagar := resultado_con_abono.total_pagado
    valor_ahorrado_intereses := ahorro_intereses
    veces_pagado := quantize2 (resultado_con_abono.total_pagado / datos.valor_prestado_inicial)
    honorarios := calcular_honorarios ahorro_intereses
    honorarios_con_iva := calcular_honorarios_con_iva (calcular_honorarios ahorro_intereses)
    ingreso_minimo_requerido := calcular_ingreso_minimo nueva_cuota }

/-- The hard-coded label list of `generar_proyecciones_multiple` (line 428). -/
def nombresEleccion : List String :=
  ["1a Elección", "2a Elección", "3a Elección", "4a Elección", "5a Elección"]

/-- The label chosen for 0-based option index `i` (line 431):
`nombres[i]` when `i < len(nombres)`, else `f"Opción {i + 1}"`. -/
def nombreOpcion (i : ℕ) : String :=
  if h : i < nombresEleccion.length then nombresEleccion.get ⟨i, h⟩
  else "Opción " ++ toString (i + 1)

/-- The `for i, abono in enumerate(abonos)` loop of
`generar_proyecciones_multiple` starting at index `i`. -/
def proyeccionesDesde (conv : ℚ → ℚ) (datos : DatosCredito) :
    ℕ → List ℚ → List ResultadoProyeccion
  | _, [] => []
  | i, abono :: resto =>
    calcular_proyeccion conv datos abono (i + 1) (nombreOpcion i) ::
      proyeccionesDesde conv datos (i + 1) resto

/-- `CalculadoraFinanciera.generar_proyecciones_multiple` (lines 412-440). -/
def generar_proyecciones_multiple (conv : ℚ → ℚ) (datos : DatosCredito)
    (abonos : List ℚ) : List ResultadoProyeccion :=
  proyeccionesDesde conv datos 0 abonos

/-- `CalculadoraFinanciera.calcular_resumen_credito` (lines 446-509). -/
def calcular_resumen_credito (datos : DatosCredito)
    (cuotas_pagadas cuotas_pactadas : ℤ) : ResumenCredito :=
  let cuota_completa := datos.valor_cuota_actual + datos.beneficio_frech
  let total_pagado_fecha := datos.valor_cuota_actual * (cuotas_pagadas : ℚ)
  let total_frech_recibido := datos.beneficio_frech * (cuotas_pagadas : ℚ)
  let monto_real_pagado_banco := total_pagado_fecha + total_frech_recibido
  let ajuste_inflacion := datos.saldo_capital - datos.valor_prestado_inicial
  let porcentaje_ajuste :=
    if 0 < datos.valor_prestado_inicial then
      quantize4 (ajuste_inflacion / datos.valor_prestado_inicial)
    else 0
  let capital_amortizado_estimado := datos.valor_prestado_inicial - datos.saldo_capital
  let costos := monto_real_pagado_banco - capital_amortizado_estimado
  { valor_prestado := datos.valor_prestado_inicial
    cuotas_pactadas := cuotas_pactadas
    cuotas_pagadas := cuotas_pagadas
    cuotas_por_pagar := cuotas_pactadas - cuotas_pagadas
    cuota_actual := datos.valor_cuota_actual
    beneficio_frech := datos.beneficio_frech
    cuota_completa := cuota_completa
    total_pagado_fecha := total_pagado_fecha
    total_frech_recibido := total_frech_recibido
    monto_real_pagado_banco := monto_real_pagado_banco
    saldo_actual := datos.saldo_capital
    ajuste_inflacion_pesos := ajuste_inflacion
    porcentaje_ajuste := porcentaje_ajuste
    total_intereses_seguros := if costos < 0 then 0 else costos }

-- ═══════════════════════ monotonicity lemmas (claim C3) ═══════════════════════

theorem interesMes_mono {t s1 s2 : ℚ} (ht : 0 ≤ t) (h : s2 ≤ s1) :
    interesMes t s2 ≤ interesMes t s1 := by
  unfold interesMes
  exact quantize2_mono (mul_le_mul_of_nonneg_right h ht)

theorem interesMes_nonneg {t s : ℚ} (ht : 0 ≤ t) (hs : 0 ≤ s) : 0 ≤ interesMes t s := by
  unfold interesMes
  exact quantize2_nonneg (mul_nonneg hs ht)

theorem no_pagoFinal_of_mayor {t cf e1 e2 s1 s2 : ℚ} (ht : 0 ≤ t) (he : e1 ≤ e2)
    (hs : s2 ≤ s1) (hp2 : ¬ pagoFinal t cf e2 s2) : ¬ pagoFinal t cf e1 s1 := by
  intro hp1
  unfold pagoFinal at hp1 hp2
  push_neg at hp2
  have hi := interesMes_mono ht hs
  linarith

theorem tablaDesde_length_mono {t cf e1 e2 : ℚ} (ht : 0 ≤ t) (he : e1 ≤ e2) :
    ∀ (fuel : ℕ) (s1 s2 : ℚ) (n1 n2 : ℕ), s2 ≤ s1 →
      (tablaDesde t cf e2 fuel s2 n2).length ≤ (tablaDesde t cf e1 fuel s1 n1).length := by
  intro fuel
  induction fuel with
  | zero =>
    intro s1 s2 n1 n2 hs
    simp [tablaDesde]
  | succ f ih =>
    intro s1 s2 n1 n2 hs
    by_cases h2 : 1/100 < s2
    · have h1 : 1/100 < s1 := lt_of_lt_of_le h2 hs
      rw [tablaDesde_of_lt h1, tablaDesde_of_lt h2]
      simp only [List.length_cons]
      by_cases hp2 : pagoFinal t cf e2 s2
      · rw [saldoSiguiente_of_pagoFinal hp2, tablaDesde_of_le (by norm_num)]
        simp
      · have hp1 := no_pagoFinal_of_mayor ht he hs hp2
        rw [saldoSiguiente_of_not hp2, saldoSiguiente_of_not hp1]
        have hi := interesMes_mono ht hs
        have hnext : s2 - (cf - interesMes t s2) - e2 ≤ s1 - (cf - interesMes t s1) - e1 := by
          linarith
        have htail := ih _ _ (n1 + 1) (n2 + 1) hnext
        omega
    · rw [tablaDesde_of_le (not_lt.mp h2)]
      simp

theorem sumaIntereses_nonneg {t cf e : ℚ} (ht : 0 ≤ t) :
    ∀ (fuel : ℕ) (s : ℚ) (n : ℕ), 0 ≤ sumaIntereses (tablaDesde t cf e fuel s n) := by
  intro fuel
  induction fuel with
  | zero =>
    intro s n
    simp [tablaDesde, sumaIntereses]
  | succ f ih =>
    intro s n
    by_cases h1 : 1/100 < s
    · rw [tablaDesde_of_lt h1, sumaIntereses_cons]
      have hhead : (filaDe t cf e s n).interes = interesMes t s := rfl
      rw [hhead]
      have h0 : 0 ≤ interesMes t s := interesMes_nonneg ht (by linarith)
      have h2 := ih (saldoSiguiente t cf e s) (n + 1)
      linarith
    · rw [tablaDesde_of_le (not_lt.mp h1)]
      simp [sumaIntereses]

theorem sumaIntereses_mono {t cf e1 e2 : ℚ} (ht : 0 ≤ t) (he : e1 ≤ e2) :
    ∀ (fuel : ℕ) (s1 s2 : ℚ) (n1 n2 : ℕ), s2 ≤ s1 →
      sumaIntereses (tablaDesde t cf e2 fuel s2 n2)
        ≤ sumaIntereses (tablaDesde t cf e1 fuel s1 n1) := by
  intro fuel
  induction fuel with
  | zero =>
    intro s1 s2 n1 n2 hs
    simp [tablaDesde, sumaIntereses]
  | succ f ih =>
    intro s1 s2 n1 n2 hs
    by_cases h2 : 1/100 < s2
    · have h1 : 1/100 < s1 := lt_of_lt_of_le h2 hs
      rw [tablaDesde_of_lt h1, tablaDesde_of_lt h2, sumaIntereses_cons, sumaIntereses_cons]
      have hh1 : (filaDe t cf e1 s1 n1).interes = interesMes t s1 := rfl
      have hh2 : (filaDe t cf e2 s2 n2).interes = interesMes t s2 := rfl
      rw [hh1, hh2]
      have hi := interesMes_mono ht hs
      by_cases hp2 : pagoFinal t cf e2 s2
      · rw [saldoSiguiente_of_pagoFinal hp2, tablaDesde_of_le (by norm_num) t cf e2]
        have htail1 := @sumaIntereses_nonneg t cf e1 ht f (saldoSiguiente t cf e1 s1) (n1 + 1)
        rw [sumaIntereses_nil]
        linarith
      · have hp1 := no_pagoFinal_of_mayor ht he hs hp2
        rw [saldoSiguiente_of_not hp2, saldoSiguiente_of_not hp1]
        have hnext : s2 - (cf - interesMes t s2) - e2 ≤ s1 - (cf - interesMes t s1) - e1 := by
          linarith
        have htail := ih _ _ (n1 + 1) (n2 + 1) hnext
        linarith
    · rw [tablaDesde_of_le (not_lt.mp h2)]
      have htail1 := @sumaIntereses_nonneg t cf e1 ht (f + 1) s1 n1
      simpa [sumaIntereses] using htail1

-- ═══════════════════════ claims C3, C5, C7, C8, C9 ═══════════════════════

/-- Claim C3: for a fixed loan snapshot and extra payments `0 ≤ e1 < e2`,
the projection with `e1` has at least as many new periods as the one with
`e2`, and saves at most as much interest.  (The monthly rate produced by the
real `tasa_ea_a_mensual` is always nonnegative; the abstracted conversion
`conv` is assumed to agree.) -/
theorem C3_monotonia_proyeccion (conv : ℚ → ℚ) (datos : DatosCredito) (e1 e2 : ℚ)
    (ht : 0 ≤ conv datos.tasa_interes_ea) (_h0 : 0 ≤ e1) (h12 : e1 < e2)
    (n1 n2 : ℕ) (l1 l2 : String) :
    (calcular_proyeccion conv datos e2 n2 l2).cuotas_nuevas
      ≤ (calcular_proyeccion conv datos e1 n1 l1).cuotas_nuevas ∧
    (calcular_proyeccion conv datos e1 n1 l1).valor_ahorrado_intereses
      ≤ (calcular_proyeccion conv datos e2 n2 l2).valor_ahorrado_intereses := by
  have he : e1 ≤ e2 := le_of_lt h12
  constructor
  · show (tablaDesde (conv datos.tasa_interes_ea) datos.valor_cuota_actual e2 600
        datos.saldo_capital 0).length
      ≤ (tablaDesde (conv datos.tasa_interes_ea) datos.valor_cuota_actual e1 600
        datos.saldo_capital 0).length
    exact tablaDesde_length_mono ht he 600 datos.saldo_capital datos.saldo_capital 0 0 le_rfl
  · show quantize2 (sumaIntereses (tablaDesde (conv datos.tasa_interes_ea)
          datos.valor_cuota_actual 0 600 datos.saldo_capital 0))
        - quantize2 (sumaIntereses (tablaDesde (conv datos.tasa_interes_ea)
          datos.valor_cuota_actual e1 600 datos.saldo_capital 0))
      ≤ quantize2 (sumaIntereses (tablaDesde (conv datos.tasa_interes_ea)
          datos.valor_cuota_actual 0 600 datos.saldo_capital 0))
        - quantize2 (sumaIntereses (tablaDesde (conv datos.tasa_interes_ea)
          datos.valor_cuota_actual e2 600 datos.saldo_capital 0))
    have hsum := @sumaIntereses_mono (conv datos.tasa_interes_ea) datos.valor_cuota_actual e1 e2 ht he 600 datos.saldo_capital datos.saldo_capital 0 0 le_rfl
    have hq := quantize2_mono hsum
    linarith

/-- Claim C5: `calcular_honorarios` returns `max(ahorro * 0.03,
TARIFA_MINIMA_HONORARIOS)` rounded to 2 decimals, and whenever 3% of the
saving is below the floor (saving 0 included) the fee is exactly the floor
of 500000. -/
theorem C5_honorarios (s : ℚ) :
    calcular_honorarios s = quantize2 (max (s * (3/100)) 500000) ∧
    (s * (3/100) < 500000 → calcular_honorarios s = 500000) := by
  constructor
  · rfl
  · intro h
    unfold calcular_honorarios PORCENTAJE_HONORARIOS TARIFA_MINIMA_HONORARIOS
    rw [max_eq_right (le_of_lt h)]
    have h2 : (500000 : ℚ) = ((50000000 : ℤ) : ℚ) / 100 := by norm_num
    rw [h2, quantize2_centavos]

/-- Claim C7 (amended): `calcular_resumen_credito` fills the inflation block
for every amortization system, not only UVR: the adjustment is always
`saldo_capital - valor_prestado_inicial`, and the percentage is that
difference over `valor_prestado_inicial` (4-decimal rounded) when the
original principal is positive, 0 otherwise. -/
theorem C7_resumen_ajuste (datos : DatosCredito) (cp cpa : ℤ) :
    (calcular_resumen_credito datos cp cpa).ajuste_inflacion_pesos
      = datos.saldo_capital - datos.valor_prestado_inicial ∧
    (0 < datos.valor_prestado_inicial →
      (calcular_resumen_credito datos cp cpa).porcentaje_ajuste
        = quantize4 ((datos.saldo_capital - datos.valor_prestado_inicial)
            / datos.valor_prestado_inicial)) ∧
    (¬ 0 < datos.valor_prestado_inicial →
      (calcular_resumen_credito datos cp cpa).porcentaje_ajuste = 0) := by
  refine ⟨rfl, ?_, ?_⟩
  · intro h
    show (if 0 < datos.valor_prestado_inicial then
        quantize4 ((datos.saldo_capital - datos.valor_prestado_inicial)
          / datos.valor_prestado_inicial) else 0)
      = quantize4 ((datos.saldo_capital - datos.valor_prestado_inicial)
          / datos.valor_prestado_inicial)
    rw [if_pos h]
  · intro h
    show (if 0 < datos.valor_prestado_inicial then
        quantize4 ((datos.saldo_capital - datos.valor_prestado_inicial)
          / datos.valor_prestado_inicial) else 0)
      = 0
    rw [if_neg h]

theorem proyeccionesDesde_length (conv : ℚ → ℚ) (datos : DatosCredito) :
    ∀ (abonos : List ℚ) (k : ℕ),
      (proyeccionesDesde conv datos k abonos).length = abonos.length := by
  intro abonos
  induction abonos with
  | nil => intro k; rfl
  | cons b resto ih =>
    intro k
    simp [proyeccionesDesde, ih]

theorem proyeccionesDesde_getElem (conv : ℚ → ℚ) (datos : DatosCredito) :
    ∀ (abonos : List ℚ) (k i : ℕ) (a : ℚ), abonos[i]? = some a →
      (proyeccionesDesde conv datos k abonos)[i]? =
        some (calcular_proyeccion conv datos a (k + i + 1) (nombreOpcion (k + i))) := by
  intro abonos
  induction abonos with
  | nil =>
    intro k i a h
    simp at h
  | cons b resto ih =>
    intro k i a h
    cases i with
    | zero =>
      simp at h
      subst h
      simp [proyeccionesDesde]
    | succ j =>
      have h2 : resto[j]? = some a := by simpa using h
      have hk : k + (j + 1) = (k + 1) + j := by omega
      rw [hk]
      have h3 := ih (k + 1) j a h2
      simpa [proyeccionesDesde] using h3

/-- Claim C8 (amended): `generar_proyecciones_multiple` returns one
projection per extra payment, in input order, the i-th (0-based) equal to
`calcular_proyeccion` at that payment with option number `i + 1`; but the
labels are the hard-coded Spanish ordinals "1a Elección" … "5a Elección"
with fallback "Opción {i+1}" from the sixth on, and the function accepts no
caller-supplied labels. -/
theorem C8_proyecciones_multiple (conv : ℚ → ℚ) (datos : DatosCredito) (abonos : List ℚ) :
    (generar_proyecciones_multiple conv datos abonos).length = abonos.length ∧
    ∀ (i : ℕ) (a : ℚ), abonos[i]? = some a →
      (generar_proyecciones_multiple conv datos abonos)[i]? =
        some (calcular_proyeccion conv datos a (i + 1) (nombreOpcion i)) := by
  constructor
  · exact proyeccionesDesde_length conv datos abonos 0
  · intro i a h
    have h2 := proyeccionesDesde_getElem conv datos abonos 0 i a h
    simpa [generar_proyecciones_multiple] using h2

/-- Claim C9 (amended): `calcular_cuota_fija` returns 0 for non-positive
principal or term; with a non-positive rate it returns `capital /
num_cuotas` rounded to 2 decimals — with the context default half-even
rounding, not half-up; only the positive-rate branch rounds half-up. -/
theorem C9_cuota_fija (fpow : ℚ → ℕ → ℚ) (capital tasa : ℚ) (n : ℤ) :
    ((capital ≤ 0 ∨ n ≤ 0) → calcular_cuota_fija fpow capital tasa n = 0) ∧
    (0 < capital → 0 < n → tasa ≤ 0 →
      calcular_cuota_fija fpow capital tasa n = quantize2 (capital / (n : ℚ))) ∧
    (0 < capital → 0 < n → 0 < tasa →
      calcular_cuota_fija fpow capital tasa n =
        quantize2up (capital * tasa * fpow (1 + tasa) n.toNat /
          (fpow (1 + tasa) n.toNat - 1))) := by
  refine ⟨?_, ?_, ?_⟩
  · intro h
    unfold calcular_cuota_fija
    rw [if_pos h]
  · intro h1 h2 h3
    unfold calcular_cuota_fija
    have hg : ¬ (capital ≤ 0 ∨ n ≤ 0) := by
      push_neg
      exact ⟨h1, h2⟩
    rw [if_neg hg, if_pos h3]
  · intro h1 h2 h3
    unfold calcular_cuota_fija
    have hg : ¬ (capital ≤ 0 ∨ n ≤ 0) := by
      push_neg
      exact ⟨h1, h2⟩
    rw [if_neg hg, if_neg (not_le.mpr h3)]

-- ═══════════════════════ concrete inputs for witnesses / counterexamples ═══════════════════════

/-- A peso-denominated example snapshot (balance 110 on an original principal
of 100, zero rate). -/
def datosPesosEjemplo : DatosCredito :=
  { saldo_capital := 110, valor_cuota_actual := 1, cuotas_pendientes := 12,
    tasa_interes_ea := 0, valor_prestado_inicial := 100, beneficio_frech := 0,
    seguros_mensual := 0, sistema_amortizacion := "PESOS",
    valor_uvr_actual := none, saldo_uvr := none }

/-- The second (and last) row of `generar_tabla_amortizacion 100 0 60 0 3`. -/
def filaEjemplo : FilaAmortizacion := ⟨2, 40, 40, 0, 40, 0, 0⟩

/-- Evaluation of the two-row schedule for balance 100, zero rate,
installment 60. -/
theorem tabla_100_60_eval : (generar_tabla_amortizacion 100 0 60 0 3).tabla =
    [⟨1, 100, 60, 0, 60, 0, 40⟩, ⟨2, 40, 40, 0, 40, 0, 0⟩] := by
  norm_num [generar_tabla_amortizacion, tablaDesde, filaDe, cuotaReal, abonoCapitalReal,
    abonoExtraReal, saldoSiguiente, interesMes, pagoFinal, quantize2, rhe]

/-- Witness for C1 at the payoff row of a concrete schedule. -/
theorem C1_filas_tabla_witness :
    filaEjemplo ∈ (generar_tabla_amortizacion 100 0 60 0 3).tabla ∧
    (filaEjemplo.interes = quantize2 (filaEjemplo.saldo_inicial * 0) ∧
     (filaEjemplo.saldo_inicial ≤ (60 - quantize2 (filaEjemplo.saldo_inicial * 0)) + 0 →
       filaEjemplo.abono_capital = filaEjemplo.saldo_inicial ∧ filaEjemplo.abono_extra = 0 ∧
       filaEjemplo.cuota_total
         = quantize2 (filaEjemplo.saldo_inicial * 0) + filaEjemplo.saldo_inicial ∧
       filaEjemplo.numero_cuota = (generar_tabla_amortizacion 100 0 60 0 3).cuotas_totales) ∧
     (¬ (filaEjemplo.saldo_inicial ≤ (60 - quantize2 (filaEjemplo.saldo_inicial * 0)) + 0) →
       filaEjemplo.abono_capital = 60 - quantize2 (filaEjemplo.saldo_inicial * 0) ∧
       filaEjemplo.abono_extra = 0 ∧ filaEjemplo.cuota_total = 60 + 0) ∧
     filaEjemplo.saldo_final
       = max (filaEjemplo.saldo_inicial - filaEjemplo.abono_capital - filaEjemplo.abono_extra)
           0) :=
  ⟨by rw [tabla_100_60_eval]; simp [filaEjemplo],
   C1_filas_tabla 100 0 60 0 3 filaEjemplo (by rw [tabla_100_60_eval]; simp [filaEjemplo])⟩

/-- Counterexample for C2 as stated: with the sub-cent installment 0.015 the
single row's `cuota_total` sums to 0.015 while `total_pagado` is the rounded
0.02, so `sum(cuota_total) = total_pagado` fails. -/
theorem C2_total_pagado_contraejemplo :
    (generar_tabla_amortizacion (1/40) 0 (3/200) 0 3).total_pagado = 1/50 ∧
    sumaCuotas (generar_tabla_amortizacion (1/40) 0 (3/200) 0 3).tabla = 3/200 ∧
    (1/50 : ℚ) ≠ 3/200 := by
  refine ⟨?_, ?_, by norm_num⟩ <;>
    norm_num [generar_tabla_amortizacion, tablaDesde, filaDe, cuotaReal, abonoCapitalReal,
      abonoExtraReal, saldoSiguiente, interesMes, pagoFinal, quantize2, rhe, sumaCuotas]

/-- Witness for the amended C2 at a cent-aligned schedule. -/
theorem C2_conservacion_witness :
    filaEjemplo.saldo_final
      = filaEjemplo.saldo_inicial - filaEjemplo.abono_capital - filaEjemplo.abono_extra ∧
    (generar_tabla_amortizacion 100 0 60 0 3).total_pagado
      = sumaCuotas (generar_tabla_amortizacion 100 0 60 0 3).tabla :=
  ⟨((C2_conservacion 100 0 60 0 3).1 filaEjemplo
      (by rw [tabla_100_60_eval]; simp [filaEjemplo])).1,
   (C2_conservacion 100 0 60 0 3).2.2 ⟨10000, by norm_num⟩ ⟨6000, by norm_num⟩
     ⟨0, by norm_num⟩⟩

/-- Witness for C3 with a concrete zero-rate conversion and payments 0 < 10. -/
theorem C3_monotonia_proyeccion_witness :
    (0 : ℚ) ≤ (fun _ : ℚ => (0 : ℚ)) datosPesosEjemplo.tasa_interes_ea ∧
    (0 : ℚ) ≤ 0 ∧ (0 : ℚ) < 10 ∧
    ((calcular_proyeccion (fun _ => 0) datosPesosEjemplo 10 2 "b").cuotas_nuevas
       ≤ (calcular_proyeccion (fun _ => 0) datosPesosEjemplo 0 1 "a").cuotas_nuevas ∧
     (calcular_proyeccion (fun _ => 0) datosPesosEjemplo 0 1 "a").valor_ahorrado_intereses
       ≤ (calcular_proyeccion (fun _ => 0) datosPesosEjemplo 10 2 "b").valor_ahorrado_intereses) :=
  ⟨le_rfl, le_rfl, by norm_num,
   C3_monotonia_proyeccion (fun _ => 0) datosPesosEjemplo 0 10 le_rfl le_rfl (by norm_num)
     1 2 "a" "b"⟩

/-- Counterexample for C4 as stated, and for any repair that only asks the
cap to exceed the quotient balance over margin: with zero rate and
installment 1 on balance 20 the premise `cuota_fija > tasa * saldo` holds,
yet the cap of 4 periods is exhausted with balance 16 left; with balance
1.01 the schedule does stop early but at exactly 0.01, not strictly below
it; and on balance 2.6 with cap 3 the margin premise holds and the quotient
2.6 / 0.995 is below the cap, yet the run uses exactly 3 = cap periods — a
whole extra period beyond the quotient is needed before the strict bound
holds. -/
theorem C4_terminacion_contraejemplo :
    ((0 : ℚ) * 20 < 1 ∧
      (generar_tabla_amortizacion 20 0 1 0 4).cuotas_totales = 4 ∧
      saldoRestante 20 (generar_tabla_amortizacion 20 0 1 0 4).tabla = 16) ∧
    ((0 : ℚ) * (101/100) < 1 ∧
      (generar_tabla_amortizacion (101/100) 0 1 0 3).cuotas_totales = 1 ∧
      saldoRestante (101/100) (generar_tabla_amortizacion (101/100) 0 1 0 3).tabla = 1/100 ∧
      ¬ ((1/100 : ℚ) < 1/100)) ∧
    ((0 : ℚ) * (13/5) + 1/200 < 1 ∧
      (13/5 : ℚ) / (1 - ((0 : ℚ) * (13/5) + 1/200)) < 3 ∧
      (generar_tabla_amortizacion (13/5) 0 1 0 3).cuotas_totales = 3 ∧
      ¬ ((generar_tabla_amortizacion (13/5) 0 1 0 3).cuotas_totales < 3)) := by
  refine ⟨⟨by norm_num, ?_, ?_⟩, ⟨by norm_num, ?_, ?_, by norm_num⟩,
    ⟨by norm_num, by norm_num, ?_, ?_⟩⟩ <;>
    norm_num [generar_tabla_amortizacion, tablaDesde, filaDe, cuotaReal, abonoCapitalReal,
      abonoExtraReal, saldoSiguiente, interesMes, pagoFinal, quantize2, rhe, saldoRestante,
      List.getLast?, Option.elim]

/-- Witness for the amended C4: margin 59.995 retires balance 100 within 2
periods, below the cap of 3. -/
theorem C4_terminacion_witness :
    (generar_tabla_amortizacion 100 0 60 0 3).cuotas_totales < 3 ∧
    saldoRestante 100 (generar_tabla_amortizacion 100 0 60 0 3).tabla ≤ 1/100 :=
  C4_terminacion 100 0 60 0 2 3 le_rfl le_rfl (by norm_num) (by push_cast; norm_num)
    (by norm_num)

/-- Witness for C5 at zero savings: the floor applies exactly. -/
theorem C5_honorarios_witness :
    (0 : ℚ) * (3/100) < 500000 ∧ calcular_honorarios 0 = 500000 :=
  ⟨by norm_num, (C5_honorarios 0).2 (by norm_num)⟩

/-- Counterexample for C6 as stated: a capped run returns a plain
`ResultadoAmortizacion` fully determined by the five dataclass fields —
count, three totals and the row list — with no `didNotConverge`-style flag
anywhere in the value, even though the remaining balance 95 is positive. -/
theorem C6_sin_bandera_contraejemplo :
    generar_tabla_amortizacion 100 0 1 0 5 =
      { cuotas_totales := 5, total_pagado := 5, total_intereses := 0, total_capital := 5,
        tabla := [⟨1, 100, 1, 0, 1, 0, 99⟩, ⟨2, 99, 1, 0, 1, 0, 98⟩, ⟨3, 98, 1, 0, 1, 0, 97⟩,
                  ⟨4, 97, 1, 0, 1, 0, 96⟩, ⟨5, 96, 1, 0, 1, 0, 95⟩] } ∧
    (1/100 : ℚ) < 95 := by
  refine ⟨?_, by norm_num⟩
  norm_num [generar_tabla_amortizacion, tablaDesde, filaDe, cuotaReal, abonoCapitalReal,
    abonoExtraReal, saldoSiguiente, interesMes, pagoFinal, quantize2, rhe, sumaCuotas,
    sumaIntereses, sumaCapital]

/-- Witness for the amended C6 at the same capped run. -/
theorem C6_cap_alcanzado_witness :
    1/100 < saldoRestante 100 (generar_tabla_amortizacion 100 0 1 0 5).tabla ∧
    ((generar_tabla_amortizacion 100 0 1 0 5).cuotas_totales = 5 ∧
     (generar_tabla_amortizacion 100 0 1 0 5).tabla.length = 5) :=
  ⟨by norm_num [generar_tabla_amortizacion, tablaDesde, filaDe, cuotaReal, abonoCapitalReal,
      abonoExtraReal, saldoSiguiente, interesMes, pagoFinal, quantize2, rhe, saldoRestante,
      List.getLast?, Option.elim],
   C6_cap_alcanzado 100 0 1 0 5
     (by norm_num [generar_tabla_amortizacion, tablaDesde, filaDe, cuotaReal, abonoCapitalReal,
       abonoExtraReal, saldoSiguiente, interesMes, pagoFinal, quantize2, rhe, saldoRestante,
       List.getLast?, Option.elim])⟩

/-- Counterexample for C7 as stated: a "PESOS" (non-UVR) loan still gets a
populated inflation block. -/
theorem C7_resumen_ajuste_contraejemplo :
    datosPesosEjemplo.sistema_amortizacion ≠ "UVR" ∧
    (calcular_resumen_credito datosPesosEjemplo 0 12).ajuste_inflacion_pesos = 10 ∧
    (calcular_resumen_credito datosPesosEjemplo 0 12).porcentaje_ajuste = 1/10 := by
  refine ⟨by decide, ?_, ?_⟩ <;>
    norm_num [calcular_resumen_credito, datosPesosEjemplo, quantize4, rhe]

/-- Witness for the amended C7 on the same PESOS loan. -/
theorem C7_resumen_ajuste_witness :
    (0 : ℚ) < datosPesosEjemplo.valor_prestado_inicial ∧
    (calcular_resumen_credito datosPesosEjemplo 0 12).porcentaje_ajuste
      = quantize4 ((datosPesosEjemplo.saldo_capital - datosPesosEjemplo.valor_prestado_inicial)
          / datosPesosEjemplo.valor_prestado_inicial) :=
  ⟨by norm_num [datosPesosEjemplo],
   (C7_resumen_ajuste datosPesosEjemplo 0 12).2.1 (by norm_num [datosPesosEjemplo])⟩

/-- Counterexample for C8 as stated: the first option is labeled
"1a Elección", not an "Opción 1" / "Option 1" ordinal, and no parameter
exists through which a caller could supply labels. -/
theorem C8_etiquetas_contraejemplo :
    ((generar_proyecciones_multiple (fun _ => 0) datosPesosEjemplo [0]).map
        ResultadoProyeccion.nombre_opcion) = ["1a Elección"] ∧
    ("1a Elección" : String) ≠ "Opción 1" ∧ ("1a Elección" : String) ≠ "Option 1" := by
  refine ⟨rfl, by decide, by decide⟩

/-- Witness for the amended C8 on a one-element payment list. -/
theorem C8_proyecciones_multiple_witness :
    (([0] : List ℚ)[0]? = some 0) ∧
    (generar_proyecciones_multiple (fun _ => 0) datosPesosEjemplo [0])[0]? =
      some (calcular_proyeccion (fun _ => 0) datosPesosEjemplo 0 1 (nombreOpcion 0)) :=
  ⟨rfl, (C8_proyecciones_multiple (fun _ => 0) datosPesosEjemplo [0]).2 0 0 rfl⟩

/-- Counterexample for C9 as stated: in the zero-rate branch the quantize
call uses the context default (half-even), so 0.025 / 1 rounds to 0.02
where half-up would give 0.03. -/
theorem C9_cuota_fija_contraejemplo :
    calcular_cuota_fija (fun _ _ => 0) (1/40) 0 1 = 1/50 ∧
    quantize2up ((1/40) / ((1 : ℤ) : ℚ)) = 3/100 ∧
    (1/50 : ℚ) ≠ 3/100 := by
  refine ⟨?_, ?_, by norm_num⟩ <;>
    norm_num [calcular_cuota_fija, quantize2, quantize2up, rhe, rhu]

/-- Witness for the amended C9 in the zero-rate branch. -/
theorem C9_cuota_fija_witness :
    (0 : ℚ) < 12 ∧ (0 : ℤ) < 12 ∧ (0 : ℚ) ≤ 0 ∧
    calcular_cuota_fija (fun _ _ => 0) 12 0 12 = quantize2 (12 / ((12 : ℤ) : ℚ)) :=
  ⟨by norm_num, by norm_num, le_rfl,
   (C9_cuota_fija (fun _ _ => 0) 12 0 12).2.1 (by norm_num) (by norm_num) le_rfl⟩

/-- Witness for C10 at a balance of exactly one cent. -/
theorem C10_saldo_ya_pagado_witness :
    (1/100 : ℚ) ≤ 1/100 ∧
    generar_tabla_amortizacion (1/100) (1/2) 3 4 600 =
      { cuotas_totales := 0, total_pagado := 0, total_intereses := 0,
        total_capital := 0, tabla := [] } :=
  ⟨le_rfl, C10_saldo_ya_pagado (1/100) (1/2) 3 4 600 le_rfl⟩

end CalcService
